import Mathlib

/-!
# Verification of `arcade/gl/texture_array.py`

A shallow embedding of the `TextureArray` class from `src/arcade/gl/texture_array.py`.
The OpenGL server is modelled as an explicit `GLState` record holding the registers
and the single texture storage that the class touches; every `gl.*` call in the
source becomes a pure function on `GLState`.  Python `ValueError` / `RuntimeError`
/ slot `AttributeError` / `TypeError` exceptions become an `Err` value returned
through `Except`; an operation that raises before issuing any GL call returns
`.error e` without producing a new state, matching the source, where the raise
happens before the first device call of the operation.

The tables `pixel_formats`, `swizzle_str_to_enum` and `compare_funcs` and the
helper `data_to_ctypes` live in `arcade/gl/types.py` / `arcade/gl/utils.py`,
which are not part of the sources; they are modelled from the spec where noted.
-/

deriving instance DecidableEq for Except

namespace Arcade

/-- Python exceptions raised by the texture code, by class and message.
Messages are the static parts of the source's messages (interpolated parts
dropped). -/
inductive Err where
  | valueError (msg : String)
  | runtimeError (msg : String)
  | attributeError (msg : String)
  | typeError (msg : String)
  deriving Repr, DecidableEq

/-! ## OpenGL constants (numeric values as in the OpenGL headers) -/

def GL_TEXTURE0 : Nat := 33984
def GL_TEXTURE_2D_ARRAY : Nat := 35866
def GL_TEXTURE_2D_MULTISAMPLE_ARRAY : Nat := 37122
def GL_NEAREST : Nat := 9728
def GL_LINEAR : Nat := 9729
def GL_REPEAT : Nat := 10497
def GL_TEXTURE_MIN_FILTER : Nat := 10241
def GL_TEXTURE_MAG_FILTER : Nat := 10240
def GL_TEXTURE_WRAP_S : Nat := 10242
def GL_TEXTURE_WRAP_T : Nat := 10243
def GL_TEXTURE_SWIZZLE_R : Nat := 36418
def GL_TEXTURE_SWIZZLE_G : Nat := 36419
def GL_TEXTURE_SWIZZLE_B : Nat := 36420
def GL_TEXTURE_SWIZZLE_A : Nat := 36421
def GL_TEXTURE_COMPARE_MODE : Nat := 34892
def GL_TEXTURE_COMPARE_FUNC : Nat := 34893
def GL_TEXTURE_MAX_ANISOTROPY : Nat := 34046
def GL_COMPARE_REF_TO_TEXTURE : Nat := 34894
def GL_NONE : Nat := 0
def GL_UNPACK_ALIGNMENT : Nat := 3317
def GL_PACK_ALIGNMENT : Nat := 3333
def GL_DEPTH_COMPONENT24 : Nat := 33190
def GL_DEPTH_COMPONENT : Nat := 6402
def GL_RED : Nat := 6403
def GL_RG : Nat := 33319
def GL_RGB : Nat := 6407
def GL_RGBA : Nat := 6408
def GL_ZERO : Nat := 0
def GL_ONE : Nat := 1
def GL_GREEN : Nat := 6404
def GL_BLUE : Nat := 6405
def GL_ALPHA : Nat := 6406
def GL_BYTE : Nat := 5120
def GL_UNSIGNED_BYTE : Nat := 5121
def GL_SHORT : Nat := 5122
def GL_UNSIGNED_SHORT : Nat := 5123
def GL_INT : Nat := 5124
def GL_UNSIGNED_INT : Nat := 5125
def GL_FLOAT : Nat := 5126
def GL_HALF_FLOAT : Nat := 5131
def GL_NEVER : Nat := 512
def GL_LESS : Nat := 513
def GL_EQUAL : Nat := 514
def GL_LEQUAL : Nat := 515
def GL_GREATER : Nat := 516
def GL_NOTEQUAL : Nat := 517
def GL_GEQUAL : Nat := 518
def GL_ALWAYS : Nat := 519

/-! ## The modelled GL server state

One device context with the single texture object the claims exercise.  The
texture storage is a flat byte list `contents`, laid out layer-major
(`index = ((layer * texH + y) * texW + x) * pixSize + byteInPixel`), together
with the dimensions the server recorded at allocation time. -/

structure GLState where
  /-- `pyglet.gl.current_context is None` is modelled by this flag being false. -/
  currentContextAlive : Bool
  /-- Next id handed out by `glGenTextures`; real drivers never return 0. -/
  nextId : Nat
  activeUnit : Nat
  boundTexture : Nat
  unpackAlignment : Nat
  packAlignment : Nat
  /-- Dimensions of the allocated texture storage, recorded by the
  `glTexImage3D` / `glTexStorage3D` family. -/
  texW : Nat
  texH : Nat
  texL : Nat
  /-- Bytes per pixel of the allocated storage. -/
  pixSize : Nat
  /-- Raw bytes of the texture image (flat, layer-major). -/
  contents : List Nat
  swizzleR : Nat
  swizzleG : Nat
  swizzleB : Nat
  swizzleA : Nat
  minFilter : Nat
  magFilter : Nat
  wrapS : Nat
  wrapT : Nat
  anisoParam : ℚ
  compareMode : Nat
  compareFuncP : Nat
  /-- Number of `glDeleteTextures` calls issued so far. -/
  deleteCalls : Nat
  deriving Repr, DecidableEq

/-- A fresh GL server state, used by concrete witnesses. -/
def GLState.initial : GLState :=
  { currentContextAlive := true, nextId := 1, activeUnit := 0, boundTexture := 0,
    unpackAlignment := 4, packAlignment := 4,
    texW := 0, texH := 0, texL := 0, pixSize := 0, contents := [],
    swizzleR := GL_RED, swizzleG := GL_GREEN, swizzleB := GL_BLUE, swizzleA := GL_ALPHA,
    minFilter := GL_NEAREST, magFilter := GL_LINEAR,
    wrapS := GL_REPEAT, wrapT := GL_REPEAT, anisoParam := 1,
    compareMode := GL_NONE, compareFuncP := GL_LEQUAL, deleteCalls := 0 }

/-! ## The GL calls the source issues, as state transformers -/

def glActiveTexture (unit : Nat) (s : GLState) : GLState :=
  { s with activeUnit := unit }

def glGenTextures (s : GLState) : Nat × GLState :=
  (s.nextId, { s with nextId := s.nextId + 1 })

def glBindTexture (_target glo : Nat) (s : GLState) : GLState :=
  { s with boundTexture := glo }

def glPixelStorei (pname value : Nat) (s : GLState) : GLState :=
  if pname = GL_UNPACK_ALIGNMENT then { s with unpackAlignment := value }
  else if pname = GL_PACK_ALIGNMENT then { s with packAlignment := value }
  else s

def glTexParameteri (_target pname value : Nat) (s : GLState) : GLState :=
  if pname = GL_TEXTURE_SWIZZLE_R then { s with swizzleR := value }
  else if pname = GL_TEXTURE_SWIZZLE_G then { s with swizzleG := value }
  else if pname = GL_TEXTURE_SWIZZLE_B then { s with swizzleB := value }
  else if pname = GL_TEXTURE_SWIZZLE_A then { s with swizzleA := value }
  else if pname = GL_TEXTURE_MIN_FILTER then { s with minFilter := value }
  else if pname = GL_TEXTURE_MAG_FILTER then { s with magFilter := value }
  else if pname = GL_TEXTURE_WRAP_S then { s with wrapS := value }
  else if pname = GL_TEXTURE_WRAP_T then { s with wrapT := value }
  else if pname = GL_TEXTURE_COMPARE_MODE then { s with compareMode := value }
  else if pname = GL_TEXTURE_COMPARE_FUNC then { s with compareFuncP := value }
  else s

def glTexParameterf (_target pname : Nat) (value : ℚ) (s : GLState) : GLState :=
  if pname = GL_TEXTURE_MAX_ANISOTROPY then { s with anisoParam := value }
  else s

def glDeleteTextures (_glo : Nat) (s : GLState) : GLState :=
  { s with deleteCalls := s.deleteCalls + 1 }

/-- `glTexImage3D`: (re-)allocates the storage.  With `data = none` (a NULL
pointer) the OpenGL contents are unspecified; the model zero-fills, matching
the spec's "freshly-zero-initialized texture" reading (no claim depends on the
bytes of an unwritten region).  `bpp` is the bytes-per-pixel the server derives
from the `format` / `gltype` pair of the call. -/
def glTexImage3D (_target _level _internalFmt w h layers _border _fmt _gltype : Nat)
    (bpp : Nat) (data : Option (List Nat)) (s : GLState) : GLState :=
  { s with texW := w, texH := h, texL := layers, pixSize := bpp,
           contents :=
             match data with
             | none => List.replicate (w * h * layers * bpp) 0
             | some d => (List.range (w * h * layers * bpp)).map (fun i => d.getD i 0) }

/-- `glTexStorage3D`: immutable storage allocation (zero-initialized in the model,
as for `glTexImage3D`). -/
def glTexStorage3D (_target _levels _internalFmt w h layers bpp : Nat) (s : GLState) : GLState :=
  { s with texW := w, texH := h, texL := layers, pixSize := bpp,
           contents := List.replicate (w * h * layers * bpp) 0 }

/-- `glTexImage3DMultisample`: multisampled storage (never read back or written
through this class, so the contents are irrelevant; zero-filled). -/
def glTexImage3DMultisample (_target _samples _internalFmt w h layers : Nat)
    (_fixedLocations : Bool) (bpp : Nat) (s : GLState) : GLState :=
  { s with texW := w, texH := h, texL := layers, pixSize := bpp,
           contents := List.replicate (w * h * layers * bpp) 0 }

/-- `glCompressedTexImage3D`: the storage holds the raw compressed bytes. -/
def glCompressedTexImage3D (_target _level _internalFmt w h layers _border : Nat)
    (d : List Nat) (s : GLState) : GLState :=
  { s with texW := w, texH := h, texL := layers, pixSize := 0, contents := d }

/-- The new contents of the texture after a `glTexSubImage3D` call updating the
box at offset `(x, y, l)` of extent `(w, h, d)` from `data` (tightly packed,
unpack alignment 1 as the source always sets). -/
def texSubImageContents (texW texH texL ps x y l w h d : Nat)
    (data old : List Nat) : List Nat :=
  (List.range (texW * texH * texL * ps)).map fun i =>
    let p := i / ps
    let b := i % ps
    let px := p % texW
    let py := (p / texW) % texH
    let pl := p / (texW * texH)
    if l ≤ pl ∧ pl < l + d ∧ x ≤ px ∧ px < x + w ∧ y ≤ py ∧ py < y + h then
      data.getD ((((pl - l) * h + (py - y)) * w + (px - x)) * ps + b) 0
    else old.getD i 0

/-- `glTexSubImage3D` on the bound texture (the source only ever writes level 0
sub-images whose level matches the allocated storage, so `level` is carried but
does not select a separate mip image in the model). -/
def glTexSubImage3D (_target _level x y l w h d : Nat) (data : List Nat) (s : GLState) : GLState :=
  { s with contents :=
      texSubImageContents s.texW s.texH s.texL s.pixSize x y l w h d data s.contents }

/-- `glGetTexImage` into a client buffer of `n` bytes: the buffer is
zero-initialized by `(gl.GLubyte * n)()` and the server copies the image bytes
into it (the source reads with the same layout it allocated, alignment 1 in
every claim). -/
def glGetTexImage (_level n : Nat) (s : GLState) : List Nat :=
  (List.range n).map (fun i => s.contents.getD i 0)

/-! ## Tables from `arcade/gl/types.py` (not in the sources) -/

/-- One row of the `pixel_formats` table: the per-component-count format and
internal-format enum lists (index = component count, entry 0 unused), the GL
type enum, and the element byte size. -/
structure PixelFormatInfo where
  format : List Nat
  internal_format : List Nat
  gltype : Nat
  size : Nat
  deriving Repr, DecidableEq

/-- Modelled from the spec: the `pixel_formats` dict of `arcade/gl/types.py`
(not in the sources).  The spec and the class docstring fix the nine supported
dtype keys and their GL types, hence their element byte sizes
(f1/i1/u1 are 1 byte, f2/i2/u2 are 2 bytes, f4/i4/u4 are 4 bytes).  The
format / internal-format enum entries are not pinned down by the spec; the
model uses the base color formats for every row — no claim depends on the
numeric values, only on the lookup succeeding and on the byte size. -/
def pixel_formats (dtype : String) : Option PixelFormatInfo :=
  if dtype = "f1" then
    some ⟨[0, GL_RED, GL_RG, GL_RGB, GL_RGBA], [0, GL_RED, GL_RG, GL_RGB, GL_RGBA],
          GL_UNSIGNED_BYTE, 1⟩
  else if dtype = "f2" then
    some ⟨[0, GL_RED, GL_RG, GL_RGB, GL_RGBA], [0, GL_RED, GL_RG, GL_RGB, GL_RGBA],
          GL_HALF_FLOAT, 2⟩
  else if dtype = "f4" then
    some ⟨[0, GL_RED, GL_RG, GL_RGB, GL_RGBA], [0, GL_RED, GL_RG, GL_RGB, GL_RGBA],
          GL_FLOAT, 4⟩
  else if dtype = "i1" then
    some ⟨[0, GL_RED, GL_RG, GL_RGB, GL_RGBA], [0, GL_RED, GL_RG, GL_RGB, GL_RGBA],
          GL_BYTE, 1⟩
  else if dtype = "i2" then
    some ⟨[0, GL_RED, GL_RG, GL_RGB, GL_RGBA], [0, GL_RED, GL_RG, GL_RGB, GL_RGBA],
          GL_SHORT, 2⟩
  else if dtype = "i4" then
    some ⟨[0, GL_RED, GL_RG, GL_RGB, GL_RGBA], [0, GL_RED, GL_RG, GL_RGB, GL_RGBA],
          GL_INT, 4⟩
  else if dtype = "u1" then
    some ⟨[0, GL_RED, GL_RG, GL_RGB, GL_RGBA], [0, GL_RED, GL_RG, GL_RGB, GL_RGBA],
          GL_UNSIGNED_BYTE, 1⟩
  else if dtype = "u2" then
    some ⟨[0, GL_RED, GL_RG, GL_RGB, GL_RGBA], [0, GL_RED, GL_RG, GL_RGB, GL_RGBA],
          GL_UNSIGNED_SHORT, 2⟩
  else if dtype = "u4" then
    some ⟨[0, GL_RED, GL_RG, GL_RGB, GL_RGBA], [0, GL_RED, GL_RG, GL_RGB, GL_RGBA],
          GL_UNSIGNED_INT, 4⟩
  else none

/-- Modelled from the spec: the `swizzle_str_to_enum` dict of
`arcade/gl/types.py` (not in the sources).  The spec and the `swizzle`
docstring fix the keys R G B A 0 1 and their GL enums. -/
def swizzle_str_to_enum (c : Char) : Option Nat :=
  if c = 'R' then some GL_RED
  else if c = 'G' then some GL_GREEN
  else if c = 'B' then some GL_BLUE
  else if c = 'A' then some GL_ALPHA
  else if c = '0' then some GL_ZERO
  else if c = '1' then some GL_ONE
  else none

/-- Modelled from the spec: the `compare_funcs` dict of `arcade/gl/types.py`
(not in the sources).  The `compare_func` docstring in the source fixes the
keys and their GL comparison functions; the `None` key maps to `GL_NONE`. -/
def compare_funcs : Option String → Option Nat
  | none => some GL_NONE
  | some v =>
    if v = "<=" then some GL_LEQUAL
    else if v = "<" then some GL_LESS
    else if v = ">=" then some GL_GEQUAL
    else if v = ">" then some GL_GREATER
    else if v = "==" then some GL_EQUAL
    else if v = "!=" then some GL_NOTEQUAL
    else if v = "0" then some GL_NEVER
    else if v = "1" then some GL_ALWAYS
    else none

/-- Python truthiness of an optional bytes object: `None` and `b""` are falsy. -/
def pyTruthy : Option (List Nat) → Bool
  | none => false
  | some d => !d.isEmpty

/-- Python `value or default` for an optional integer argument: `None` and the
integer `0` are falsy. -/
def pyOrNat : Option Nat → Nat → Nat
  | none, d => d
  | some v, d => if v = 0 then d else v

/-! ## The context (`arcade.gl.Context` as the class consumes it) -/

structure Info where
  MAX_SAMPLES : Nat
  MAX_TEXTURE_MAX_ANISOTROPY : ℚ
  MAX_TEXTURE_SIZE : Nat
  deriving Repr, DecidableEq

structure Context where
  info : Info
  gl_api : String
  gc_mode : String
  default_texture_unit : Nat
  deriving Repr, DecidableEq

/-! ## The `TextureArray` object state (the Python instance slots) -/

structure TextureArray where
  glo : Nat
  width : Nat
  height : Nat
  layers : Nat
  dtype : String
  target : Nat
  components : Nat
  alignment : Nat
  depth : Bool
  compare_func : Option String
  /-- `self._format`: `none` models the slot never having been assigned
  (the depth branch of `_texture_2d` does not set it; a later access raises
  `AttributeError`). -/
  format : Option Nat
  internal_format : Option Nat
  /-- `self._type` (renamed: `type` is reserved in this development). -/
  gltype : Nat
  component_size : Nat
  samples : Nat
  filter : Nat × Nat
  wrap_x : Nat
  wrap_y : Nat
  anisotropy : ℚ
  immutable : Bool
  compressed : Bool
  compressed_data : Bool
  deriving Repr, DecidableEq

namespace TextureArray

/-- `TextureArray._validate_data_size` (lines 720-738). -/
def validate_data_size (tex : TextureArray) (byte_data : List Nat)
    (byte_size w h layers : Nat) : Except Err Unit :=
  if tex.compressed = true then .ok ()
  else
    let expected_size := w * h * layers * tex.component_size * tex.components
    if byte_size ≠ expected_size then
      .error (.valueError "Data size does not match expected size")
    else if byte_data.length ≠ byte_size then
      .error (.valueError "Data size does not match reported size")
    else .ok ()

/-- The `filter` property setter (lines 495-504).  The `isinstance` / length-2
check of the source cannot fail for a `Nat × Nat` value. -/
def filter_set (tex : TextureArray) (ctx : Context) (value : Nat × Nat)
    (s : GLState) : TextureArray × GLState :=
  let tex := { tex with filter := value }
  let s := glActiveTexture (GL_TEXTURE0 + ctx.default_texture_unit) s
  let s := glBindTexture tex.target tex.glo s
  let s := glTexParameteri tex.target GL_TEXTURE_MIN_FILTER tex.filter.1 s
  let s := glTexParameteri tex.target GL_TEXTURE_MAG_FILTER tex.filter.2 s
  (tex, s)

/-- The `wrap_x` property setter (lines 528-533). -/
def wrap_x_set (tex : TextureArray) (ctx : Context) (value : Nat)
    (s : GLState) : TextureArray × GLState :=
  let tex := { tex with wrap_x := value }
  let s := glActiveTexture (GL_TEXTURE0 + ctx.default_texture_unit) s
  let s := glBindTexture tex.target tex.glo s
  (tex, glTexParameteri tex.target GL_TEXTURE_WRAP_S value s)

/-- The `wrap_y` property setter (lines 557-562). -/
def wrap_y_set (tex : TextureArray) (ctx : Context) (value : Nat)
    (s : GLState) : TextureArray × GLState :=
  let tex := { tex with wrap_y := value }
  let s := glActiveTexture (GL_TEXTURE0 + ctx.default_texture_unit) s
  let s := glBindTexture tex.target tex.glo s
  (tex, glTexParameteri tex.target GL_TEXTURE_WRAP_T value s)

/-- The `anisotropy` property setter (lines 569-574). -/
def anisotropy_set (tex : TextureArray) (ctx : Context) (value : ℚ)
    (s : GLState) : TextureArray × GLState :=
  let tex := { tex with
    anisotropy := max 1 (min value ctx.info.MAX_TEXTURE_MAX_ANISOTROPY) }
  let s := glActiveTexture (GL_TEXTURE0 + ctx.default_texture_unit) s
  let s := glBindTexture tex.target tex.glo s
  (tex, glTexParameterf tex.target GL_TEXTURE_MAX_ANISOTROPY tex.anisotropy s)

/-- The per-character lookup loop of the `swizzle` setter (lines 448-454):
each character is upper-cased and looked up; the first unknown character
raises. -/
def swizzleEnumsOf : List Char → Except Err (List Nat)
  | [] => .ok []
  | c :: rest =>
    match swizzle_str_to_enum c.toUpper with
    | none => .error (.valueError "Swizzle value invalid. Must be one of RGBA01")
    | some e =>
      match swizzleEnumsOf rest with
      | .error err => .error err
      | .ok es => .ok (e :: es)

/-- The `swizzle` property setter (lines 440-462).  The `isinstance` check of
the source cannot fail for a `String` value. -/
def swizzle_set (tex : TextureArray) (ctx : Context) (value : String)
    (s : GLState) : Except Err GLState :=
  if value.length ≠ 4 then
    .error (.valueError "Swizzle must be a string of length 4")
  else
    match swizzleEnumsOf value.toList with
    | .error e => .error e
    | .ok swizzle_enums =>
      let s := glActiveTexture (GL_TEXTURE0 + ctx.default_texture_unit) s
      let s := glBindTexture tex.target tex.glo s
      let s := glTexParameteri tex.target GL_TEXTURE_SWIZZLE_R (swizzle_enums.getD 0 0) s
      let s := glTexParameteri tex.target GL_TEXTURE_SWIZZLE_G (swizzle_enums.getD 1 0) s
      let s := glTexParameteri tex.target GL_TEXTURE_SWIZZLE_B (swizzle_enums.getD 2 0) s
      let s := glTexParameteri tex.target GL_TEXTURE_SWIZZLE_A (swizzle_enums.getD 3 0) s
      .ok s

/-- The `compare_func` property setter (lines 593-614).  The `isinstance`
check of the source cannot fail for an `Option String` value. -/
def compare_func_set (tex : TextureArray) (ctx : Context) (value : Option String)
    (s : GLState) : Except Err (TextureArray × GLState) :=
  if tex.depth = false then
    .error (.valueError "Depth comparison function can only be set on depth textures")
  else
    match compare_funcs value with
    | none => .error (.valueError "value must be a string naming a compare function")
    | some func =>
      let tex := { tex with compare_func := value }
      let s := glActiveTexture (GL_TEXTURE0 + ctx.default_texture_unit) s
      let s := glBindTexture tex.target tex.glo s
      match value with
      | none => .ok (tex, glTexParameteri tex.target GL_TEXTURE_COMPARE_MODE GL_NONE s)
      | some _ =>
        let s := glTexParameteri tex.target GL_TEXTURE_COMPARE_MODE GL_COMPARE_REF_TO_TEXTURE s
        let s := glTexParameteri tex.target GL_TEXTURE_COMPARE_FUNC func s
        .ok (tex, s)

/-- `TextureArray.write` (lines 647-718) for a buffer-protocol `data` argument
(bytes); `data_to_ctypes` (from `arcade/gl/utils.py`, not in the sources)
reports `len(data)` as the byte length of a bytes object.  The zero-copy
`arcade.gl.Buffer` branch (lines 691-698) is outside every claim and is not
modelled.  Python's `if viewport:` treats an empty tuple like an absent one.
Note the full-texture path validates and writes a single layer (depth 1,
layer 0).  A depth texture never assigned the `_format` slot; evaluating
`self._format` while building the `glTexSubImage3D` call raises
`AttributeError` (after the binding calls, whose register changes no claim
observes at that failure). -/
def write (tex : TextureArray) (ctx : Context) (data : List Nat)
    (level : Nat) (viewport : Option (List Nat)) (s : GLState) : Except Err GLState :=
  if 0 < tex.samples then
    .error (.valueError "Writing to multisampled textures not supported")
  else
    let go : Nat → Nat → Nat → Nat → Nat → Except Err GLState := fun x y l w h =>
      let byte_size := data.length
      match tex.validate_data_size data byte_size w h 1 with
      | .error e => .error e
      | .ok _ =>
        let s := glActiveTexture (GL_TEXTURE0 + ctx.default_texture_unit) s
        let s := glBindTexture tex.target tex.glo s
        let s := glPixelStorei GL_PACK_ALIGNMENT 1 s
        let s := glPixelStorei GL_UNPACK_ALIGNMENT 1 s
        match tex.format with
        | none => .error (.attributeError "format slot is unset on this texture")
        | some _ =>
          .ok (glTexSubImage3D tex.target level x y l w h 1 data s)
    match viewport with
    | none => go 0 0 0 tex.width tex.height
    | some vp =>
      if vp.isEmpty then go 0 0 0 tex.width tex.height
      else
        match vp with
        | [x, y, l, w, h] => go x y l w h
        | _ => .error (.valueError "Viewport must be of length 5")

/-- `TextureArray._texture_2d` (lines 217-321): resolve the format row, set
`self._type` / `self._component_size`, validate supplied data, then allocate
storage down the multisample / depth / immutable / compressed / mutable
branches.  The `gl.GLException` re-wrapping (lines 313-321) has no modelled
trigger.  In the compressed branch the source evaluates `len(data)` on an
absent `data`, a Python `TypeError`. -/
def texture_2d (tex : TextureArray) (ctx : Context) (data : Option (List Nat))
    (s : GLState) : Except Err (TextureArray × GLState) :=
  match pixel_formats tex.dtype with
  | none => .error (.valueError "dtype not supported")
  | some format_info =>
    let tex := { tex with gltype := format_info.gltype, component_size := format_info.size }
    let check : Except Err Unit :=
      match data with
      | none => .ok ()
      | some d => tex.validate_data_size d d.length tex.width tex.height tex.layers
    match check with
    | .error e => .error e
    | .ok _ =>
      if tex.target = GL_TEXTURE_2D_MULTISAMPLE_ARRAY then
        .ok (tex, glTexImage3DMultisample tex.target tex.samples
          (format_info.internal_format.getD tex.components 0) tex.width tex.height
          tex.layers true (tex.component_size * tex.components) s)
      else
        let s := glPixelStorei GL_UNPACK_ALIGNMENT tex.alignment s
        let s := glPixelStorei GL_PACK_ALIGNMENT tex.alignment s
        if tex.depth then
          let s := glTexImage3D tex.target 0 GL_DEPTH_COMPONENT24 tex.width tex.height
            tex.layers 0 GL_DEPTH_COMPONENT GL_UNSIGNED_INT 4 data s
          compare_func_set tex ctx (some "<=") s
        else
          let tex := { tex with
            format := some (format_info.format.getD tex.components 0),
            internal_format :=
              match tex.internal_format with
              | some v => some v
              | none => some (format_info.internal_format.getD tex.components 0) }
          if tex.immutable then
            let s := glTexStorage3D tex.target 1 (tex.internal_format.getD 0)
              tex.width tex.height tex.layers (tex.component_size * tex.components) s
            if pyTruthy data then
              match write tex ctx (data.getD []) 0 none s with
              | .error e => .error e
              | .ok s => .ok (tex, s)
            else .ok (tex, s)
          else
            if tex.compressed_data = true then
              match data with
              | none => .error (.typeError "object of type NoneType has no length")
              | some d =>
                .ok (tex, glCompressedTexImage3D tex.target 0 (tex.internal_format.getD 0)
                  tex.width tex.height tex.layers 0 d s)
            else
              .ok (tex, glTexImage3D tex.target 0 (tex.internal_format.getD 0) tex.width
                tex.height tex.layers 0 (tex.format.getD 0) tex.gltype
                (tex.component_size * tex.components) data s)

/-- `TextureArray.__init__` (lines 114-190).  The legacy ignored `target`
argument is dropped.  The `weakref.finalize` registration under gc mode
"auto" (lines 187-188) has no observable effect at creation time and is not
modelled.  Returns the new object, the GL state and the context's texture
allocation counter (`ctx.stats`, incremented at line 190, modelled as an
`Int`). -/
def init (ctx : Context) (size : Nat × Nat × Nat) (components : Nat) (dtype : String)
    (data : Option (List Nat)) (filterArg : Option (Nat × Nat))
    (wrap_xArg : Option Nat) (wrap_yArg : Option Nat) (depth : Bool) (samples : Int)
    (immutable : Bool) (internal_format : Option Nat) (compressed : Bool)
    (compressed_data : Bool) (s : GLState) (stats : Int) :
    Except Err (TextureArray × GLState × Int) :=
  -- self._samples = min(max(0, samples), self._ctx.info.MAX_SAMPLES)
  let samplesClamped : Nat := (min (max 0 samples) (ctx.info.MAX_SAMPLES : Int)).toNat
  -- default filters: LINEAR pair for float dtypes, NEAREST pair otherwise
  let filter0 : Nat × Nat :=
    if dtype.contains (Char.ofNat 102) then (GL_LINEAR, GL_LINEAR)
    else (GL_NEAREST, GL_NEAREST)
  if components ∉ ([1, 2, 3, 4] : List Nat) then
    .error (.valueError "Components must be 1, 2, 3 or 4")
  else if pyTruthy data = true ∧ 0 < samplesClamped then
    .error (.valueError "Multisampled textures are not writable")
  else
    let target := if samplesClamped = 0 then GL_TEXTURE_2D_ARRAY
      else GL_TEXTURE_2D_MULTISAMPLE_ARRAY
    let s := glActiveTexture (GL_TEXTURE0 + ctx.default_texture_unit) s
    let gen := glGenTextures s
    let glo := gen.1
    let s := gen.2
    if glo = 0 then
      .error (.runtimeError "Cannot create Texture. OpenGL failed to generate a texture id")
    else
      let s := glBindTexture target glo s
      let tex : TextureArray :=
        { glo := glo, width := size.1, height := size.2.1, layers := size.2.2,
          dtype := dtype, target := target, components := components, alignment := 1,
          depth := depth, compare_func := none, format := none,
          internal_format := internal_format, gltype := 0, component_size := 0,
          samples := samplesClamped, filter := filter0,
          wrap_x := GL_REPEAT, wrap_y := GL_REPEAT, anisotropy := 1,
          immutable := immutable, compressed := compressed,
          compressed_data := compressed_data }
      match texture_2d tex ctx data s with
      | .error e => .error e
      | .ok (tex, s) =>
        -- parameters are only set on non-multisample textures;
        -- `filter or self._filter` is `getD` (a tuple is always truthy) and
        -- `wrap_x or self._wrap_x` is Python integer truthiness
        if tex.samples = 0 then
          let r1 := filter_set tex ctx (filterArg.getD tex.filter) s
          let r2 := wrap_x_set r1.1 ctx (pyOrNat wrap_xArg r1.1.wrap_x) r1.2
          let r3 := wrap_y_set r2.1 ctx (pyOrNat wrap_yArg r2.1.wrap_y) r2.2
          .ok (r3.1, r3.2, stats + 1)
        else
          .ok (tex, s, stats + 1)

/-- `TextureArray.resize` (lines 192-210). -/
def resize (tex : TextureArray) (ctx : Context) (size : Nat × Nat)
    (s : GLState) : Except Err (TextureArray × GLState) :=
  if tex.immutable = true then
    .error (.valueError "Immutable textures cannot be resized")
  else
    let s := glActiveTexture (GL_TEXTURE0 + ctx.default_texture_unit) s
    let s := glBindTexture tex.target tex.glo s
    let tex := { tex with width := size.1, height := size.2 }
    texture_2d tex ctx none s

/-- `TextureArray.read` (lines 616-645).  The client buffer has
`width * height * layers * component_size * components` bytes and the returned
bytes are exactly that buffer.  Building the `glGetTexImage` call evaluates
`self._format`, whose slot a depth texture never assigns (`AttributeError`,
raised after the binding calls, whose register changes no claim observes at
that failure). -/
def read (tex : TextureArray) (ctx : Context) (level alignment : Nat)
    (s : GLState) : Except Err (List Nat × GLState) :=
  if 0 < tex.samples then
    .error (.valueError "Multisampled textures cannot be read directly")
  else if ctx.gl_api = "gl" then
    let s := glActiveTexture (GL_TEXTURE0 + ctx.default_texture_unit) s
    let s := glBindTexture tex.target tex.glo s
    let s := glPixelStorei GL_PACK_ALIGNMENT alignment s
    let n := tex.width * tex.height * tex.layers * tex.component_size * tex.components
    match tex.format with
    | none => .error (.attributeError "format slot is unset on this texture")
    | some _ => .ok (glGetTexImage level n s, s)
  else if ctx.gl_api = "gles" then
    .error (.valueError "Reading texture array data not supported in GLES yet")
  else
    .error (.valueError "Unknown gl_api")

/-- `TextureArray.delete_glo` (lines 786-804): the static cleanup helper.
`gl.current_context is None` is the `currentContextAlive = false` case;
`ctx.stats.decr` becomes `stats - 1`.  Note that the decrement sits outside
the `glo.value != 0` guard. -/
def delete_glo (s : GLState) (glo : Nat) (stats : Int) : Int × GLState :=
  if s.currentContextAlive = false then (stats, s)
  else
    let s := if glo ≠ 0 then glDeleteTextures glo s else s
    (stats - 1, s)

/-- `TextureArray.delete` (lines 777-784): run `delete_glo`, then zero the
handle. -/
def delete (tex : TextureArray) (stats : Int) (s : GLState) :
    TextureArray × Int × GLState :=
  let r := delete_glo s tex.glo stats
  ({ tex with glo := 0 }, r.1, r.2)

/-- `TextureArray.byte_size` (lines 368-371): a fresh `pixel_formats` lookup;
note the layer count is not a factor.  `none` models the `KeyError` for an
unknown dtype (unreachable for a constructed texture). -/
def byte_size (tex : TextureArray) : Option Nat :=
  (pixel_formats tex.dtype).map fun fi =>
    fi.size * tex.components * tex.width * tex.height

end TextureArray

/-! ## Reduction lemmas for the GL register writes (the pname if-chains) -/

@[simp] theorem glPixelStorei_unpack (v : Nat) (s : GLState) :
    glPixelStorei GL_UNPACK_ALIGNMENT v s = { s with unpackAlignment := v } := by
  simp [glPixelStorei, GL_UNPACK_ALIGNMENT, GL_PACK_ALIGNMENT]

@[simp] theorem glPixelStorei_pack (v : Nat) (s : GLState) :
    glPixelStorei GL_PACK_ALIGNMENT v s = { s with packAlignment := v } := by
  simp [glPixelStorei, GL_UNPACK_ALIGNMENT, GL_PACK_ALIGNMENT]

@[simp] theorem glTexParameteri_swizzleR (t v : Nat) (s : GLState) :
    glTexParameteri t GL_TEXTURE_SWIZZLE_R v s = { s with swizzleR := v } := by
  simp [glTexParameteri, GL_TEXTURE_SWIZZLE_R]

@[simp] theorem glTexParameteri_swizzleG (t v : Nat) (s : GLState) :
    glTexParameteri t GL_TEXTURE_SWIZZLE_G v s = { s with swizzleG := v } := by
  simp [glTexParameteri, GL_TEXTURE_SWIZZLE_R, GL_TEXTURE_SWIZZLE_G]

@[simp] theorem glTexParameteri_swizzleB (t v : Nat) (s : GLState) :
    glTexParameteri t GL_TEXTURE_SWIZZLE_B v s = { s with swizzleB := v } := by
  simp [glTexParameteri, GL_TEXTURE_SWIZZLE_R, GL_TEXTURE_SWIZZLE_G, GL_TEXTURE_SWIZZLE_B]

@[simp] theorem glTexParameteri_swizzleA (t v : Nat) (s : GLState) :
    glTexParameteri t GL_TEXTURE_SWIZZLE_A v s = { s with swizzleA := v } := by
  simp [glTexParameteri, GL_TEXTURE_SWIZZLE_R, GL_TEXTURE_SWIZZLE_G, GL_TEXTURE_SWIZZLE_B,
    GL_TEXTURE_SWIZZLE_A]

@[simp] theorem glTexParameteri_minFilter (t v : Nat) (s : GLState) :
    glTexParameteri t GL_TEXTURE_MIN_FILTER v s = { s with minFilter := v } := by
  simp [glTexParameteri, GL_TEXTURE_SWIZZLE_R, GL_TEXTURE_SWIZZLE_G, GL_TEXTURE_SWIZZLE_B,
    GL_TEXTURE_SWIZZLE_A, GL_TEXTURE_MIN_FILTER]

@[simp] theorem glTexParameteri_magFilter (t v : Nat) (s : GLState) :
    glTexParameteri t GL_TEXTURE_MAG_FILTER v s = { s with magFilter := v } := by
  simp [glTexParameteri, GL_TEXTURE_SWIZZLE_R, GL_TEXTURE_SWIZZLE_G, GL_TEXTURE_SWIZZLE_B,
    GL_TEXTURE_SWIZZLE_A, GL_TEXTURE_MIN_FILTER, GL_TEXTURE_MAG_FILTER]

@[simp] theorem glTexParameteri_wrapS (t v : Nat) (s : GLState) :
    glTexParameteri t GL_TEXTURE_WRAP_S v s = { s with wrapS := v } := by
  simp [glTexParameteri, GL_TEXTURE_SWIZZLE_R, GL_TEXTURE_SWIZZLE_G, GL_TEXTURE_SWIZZLE_B,
    GL_TEXTURE_SWIZZLE_A, GL_TEXTURE_MIN_FILTER, GL_TEXTURE_MAG_FILTER, GL_TEXTURE_WRAP_S]

@[simp] theorem glTexParameteri_wrapT (t v : Nat) (s : GLState) :
    glTexParameteri t GL_TEXTURE_WRAP_T v s = { s with wrapT := v } := by
  simp [glTexParameteri, GL_TEXTURE_SWIZZLE_R, GL_TEXTURE_SWIZZLE_G, GL_TEXTURE_SWIZZLE_B,
    GL_TEXTURE_SWIZZLE_A, GL_TEXTURE_MIN_FILTER, GL_TEXTURE_MAG_FILTER, GL_TEXTURE_WRAP_S,
    GL_TEXTURE_WRAP_T]

@[simp] theorem glTexParameteri_compareMode (t v : Nat) (s : GLState) :
    glTexParameteri t GL_TEXTURE_COMPARE_MODE v s = { s with compareMode := v } := by
  simp [glTexParameteri, GL_TEXTURE_SWIZZLE_R, GL_TEXTURE_SWIZZLE_G, GL_TEXTURE_SWIZZLE_B,
    GL_TEXTURE_SWIZZLE_A, GL_TEXTURE_MIN_FILTER, GL_TEXTURE_MAG_FILTER, GL_TEXTURE_WRAP_S,
    GL_TEXTURE_WRAP_T, GL_TEXTURE_COMPARE_MODE]

@[simp] theorem glTexParameteri_compareFunc (t v : Nat) (s : GLState) :
    glTexParameteri t GL_TEXTURE_COMPARE_FUNC v s = { s with compareFuncP := v } := by
  simp [glTexParameteri, GL_TEXTURE_SWIZZLE_R, GL_TEXTURE_SWIZZLE_G, GL_TEXTURE_SWIZZLE_B,
    GL_TEXTURE_SWIZZLE_A, GL_TEXTURE_MIN_FILTER, GL_TEXTURE_MAG_FILTER, GL_TEXTURE_WRAP_S,
    GL_TEXTURE_WRAP_T, GL_TEXTURE_COMPARE_MODE, GL_TEXTURE_COMPARE_FUNC]

@[simp] theorem glTexParameterf_maxAniso (t : Nat) (v : ℚ) (s : GLState) :
    glTexParameterf t GL_TEXTURE_MAX_ANISOTROPY v s = { s with anisoParam := v } := by
  simp [glTexParameterf]

/-! ## Helper lemmas -/

/-- Reading `n` positions of a list of length `n` through `getD` reproduces the
list (the `glGetTexImage` copy into an exactly-sized client buffer). -/
theorem range_map_getD (n : Nat) (data : List Nat) (h : data.length = n) :
    (List.range n).map (fun i => data.getD i 0) = data := by
  apply List.ext_getElem
  · simp [h]
  · intro i h1 h2
    simp only [List.getElem_map, List.getElem_range]
    exact List.getD_eq_getElem data 0 h2

/-- A full-extent single-layer sub-image write into single-layer storage
replaces the whole contents with the supplied data. -/
theorem texSubImageContents_full (W H ps : Nat) (data old : List Nat)
    (hdata : data.length = W * H * ps) :
    texSubImageContents W H 1 ps 0 0 0 W H 1 data old = data := by
  apply List.ext_getElem
  · simp [texSubImageContents, hdata]
  · intro i h1 h2
    have hi : i < W * H * ps := by
      simpa [texSubImageContents] using h1
    have hWHps : 0 < W * H * ps := Nat.lt_of_le_of_lt (Nat.zero_le i) hi
    have hps : 0 < ps := by
      rcases Nat.eq_zero_or_pos ps with h0 | h0
      · rw [h0] at hWHps; simp at hWHps
      · exact h0
    have hW : 0 < W := by
      rcases Nat.eq_zero_or_pos W with h0 | h0
      · rw [h0] at hWHps; simp at hWHps
      · exact h0
    have hH : 0 < H := by
      rcases Nat.eq_zero_or_pos H with h0 | h0
      · rw [h0] at hWHps; simp at hWHps
      · exact h0
    simp only [texSubImageContents, List.getElem_map, List.getElem_range]
    have hp : i / ps < W * H := (Nat.div_lt_iff_lt_mul hps).mpr hi
    have hpl : i / ps / (W * H) = 0 := Nat.div_eq_of_lt hp
    have hpylt : i / ps / W < H :=
      (Nat.div_lt_iff_lt_mul hW).mpr (by rw [Nat.mul_comm H W]; exact hp)
    have hpy : i / ps / W % H = i / ps / W := Nat.mod_eq_of_lt hpylt
    rw [if_pos]
    · have hindex :
          (((i / ps / (W * H) - 0) * H + (i / ps / W % H - 0)) * W + (i / ps % W - 0)) * ps
            + i % ps = i := by
        rw [hpl, hpy]
        simp only [Nat.zero_mul, Nat.zero_add, Nat.sub_zero]
        have h3 : i / ps / W * W + i / ps % W = i / ps := by
          rw [Nat.mul_comm]; exact Nat.div_add_mod (i / ps) W
        rw [h3, Nat.mul_comm]; exact Nat.div_add_mod i ps
      rw [hindex]
      exact List.getD_eq_getElem data 0 h2
    · refine ⟨Nat.zero_le _, ?_, Nat.zero_le _, ?_, Nat.zero_le _, ?_⟩
      · rw [hpl]; omega
      · have := Nat.mod_lt (i / ps) hW; omega
      · rw [hpy]; omega

/-- Every row of the `pixel_formats` table has a positive element byte size. -/
theorem pixel_formats_size_pos (dtype : String) (fi : PixelFormatInfo)
    (h : pixel_formats dtype = some fi) : 0 < fi.size := by
  unfold pixel_formats at h
  split at h <;> first
    | (cases h; decide)
    | skip
  repeat' split at h <;> first
    | (cases h; decide)
    | skip
  cases h

/-- `__init__` on the standard non-depth, non-multisampled, uncompressed-data
path succeeds, increments the allocation counter, records the dimensions and
format metadata on the object, and allocates zero-filled storage of
`w * h * layers * elementByteSize * components` bytes on the device. -/
theorem init_ok (ctx : Context) (w h l components : Nat) (dtype : String)
    (filterArg : Option (Nat × Nat)) (wxArg wyArg : Option Nat) (immutable : Bool)
    (ifmt : Option Nat) (compressed : Bool) (s : GLState) (stats : Int)
    (fi : PixelFormatInfo)
    (hc : components ∈ ([1, 2, 3, 4] : List Nat))
    (hdt : pixel_formats dtype = some fi) (hid : s.nextId ≠ 0) :
    ∃ tex s2,
      TextureArray.init ctx (w, h, l) components dtype none filterArg wxArg wyArg false 0
        immutable ifmt compressed false s stats = .ok (tex, s2, stats + 1) ∧
      tex.width = w ∧ tex.height = h ∧ tex.layers = l ∧
      tex.components = components ∧ tex.component_size = fi.size ∧
      tex.dtype = dtype ∧ tex.samples = 0 ∧ tex.depth = false ∧
      tex.format = some (fi.format.getD components 0) ∧
      tex.immutable = immutable ∧ tex.compressed = compressed ∧
      tex.glo = s.nextId ∧
      s2.texW = w ∧ s2.texH = h ∧ s2.texL = l ∧
      s2.pixSize = fi.size * components ∧
      s2.contents = List.replicate (w * h * l * (fi.size * components)) 0 := by
  have hsc : (min (max 0 (0 : ℤ)) ((ctx.info.MAX_SAMPLES : Nat) : Int)).toNat = 0 := by
    simp
  cases immutable with
  | false =>
    simp only [TextureArray.init, hsc, TextureArray.texture_2d, hdt,
      TextureArray.filter_set, TextureArray.wrap_x_set, TextureArray.wrap_y_set,
      glActiveTexture, glGenTextures, glBindTexture,
      glPixelStorei_unpack, glPixelStorei_pack, glTexParameteri_minFilter,
      glTexParameteri_magFilter, glTexParameteri_wrapS, glTexParameteri_wrapT,
      glTexImage3D, glTexStorage3D, pyTruthy, pyOrNat, hc, hid,
      GL_TEXTURE_2D_ARRAY, GL_TEXTURE_2D_MULTISAMPLE_ARRAY]
    exact ⟨_, _, rfl, by simp⟩
  | true =>
    simp only [TextureArray.init, hsc, TextureArray.texture_2d, hdt,
      TextureArray.filter_set, TextureArray.wrap_x_set, TextureArray.wrap_y_set,
      glActiveTexture, glGenTextures, glBindTexture,
      glPixelStorei_unpack, glPixelStorei_pack, glTexParameteri_minFilter,
      glTexParameteri_magFilter, glTexParameteri_wrapS, glTexParameteri_wrapT,
      glTexImage3D, glTexStorage3D, pyTruthy, pyOrNat, hc, hid,
      GL_TEXTURE_2D_ARRAY, GL_TEXTURE_2D_MULTISAMPLE_ARRAY]
    exact ⟨_, _, rfl, by simp⟩

/-- `read` on a non-multisampled texture with an assigned `_format` slot, on the
`gl` API, returns a byte list of exactly
`width * height * layers * component_size * components` bytes. -/
theorem read_length (tex : TextureArray) (ctx : Context) (level alignment : Nat)
    (s : GLState) (hms : tex.samples = 0) (hapi : ctx.gl_api = "gl")
    (hfmt : tex.format.isSome = true) :
    ∃ bs s2, tex.read ctx level alignment s = .ok (bs, s2) ∧
      bs.length = tex.width * tex.height * tex.layers * tex.component_size * tex.components := by
  rcases Option.isSome_iff_exists.mp hfmt with ⟨f, hf⟩
  simp only [TextureArray.read, hms, hapi, hf, Nat.lt_irrefl, if_false, if_true,
    glActiveTexture, glBindTexture, glPixelStorei_pack]
  exact ⟨_, _, rfl, by simp [glGetTexImage]⟩

/-- The first unknown character encountered by the `swizzle` setter loop makes
it raise. -/
theorem swizzleEnumsOf_error (l : List Char) (c : Char) (hc : c ∈ l)
    (hbad : swizzle_str_to_enum c.toUpper = none) :
    TextureArray.swizzleEnumsOf l =
      .error (.valueError "Swizzle value invalid. Must be one of RGBA01") := by
  induction l with
  | nil => cases hc
  | cons a rest ih =>
    rcases List.mem_cons.mp hc with h | h
    · subst h
      simp [TextureArray.swizzleEnumsOf, hbad]
    · cases ha : swizzle_str_to_enum a.toUpper with
      | none => simp [TextureArray.swizzleEnumsOf, ha]
      | some e => simp [TextureArray.swizzleEnumsOf, ha, ih h]

/-! ## Concrete fixtures for witnesses and counterexamples -/

/-- A device context on the full desktop API variant, with typical limits. -/
def ctxGL : Context :=
  { info := { MAX_SAMPLES := 4, MAX_TEXTURE_MAX_ANISOTROPY := 16, MAX_TEXTURE_SIZE := 4096 },
    gl_api := "gl", gc_mode := "manual", default_texture_unit := 0 }

/-- The same device on the restricted "gles" API variant. -/
def ctxGLES : Context := { ctxGL with gl_api := "gles" }

/-- A device whose driver reports no multisample capability
(`MAX_SAMPLES = 0`). -/
def ctxNoMS : Context :=
  { ctxGL with
    info := { MAX_SAMPLES := 0, MAX_TEXTURE_MAX_ANISOTROPY := 16, MAX_TEXTURE_SIZE := 4096 } }

/-- The `pixel_formats` row for dtype `"u1"`. -/
def u1fi : PixelFormatInfo :=
  ⟨[0, GL_RED, GL_RG, GL_RGB, GL_RGBA], [0, GL_RED, GL_RG, GL_RGB, GL_RGBA],
   GL_UNSIGNED_BYTE, 1⟩

/-- A concrete 2x2x1 RGBA `u1` texture, with the fields `create` gives it. -/
def tex0 : TextureArray :=
  { glo := 1, width := 2, height := 2, layers := 1, dtype := "u1",
    target := GL_TEXTURE_2D_ARRAY, components := 4, alignment := 1,
    depth := false, compare_func := none, format := some GL_RGBA,
    internal_format := some GL_RGBA, gltype := GL_UNSIGNED_BYTE,
    component_size := 1, samples := 0, filter := (GL_NEAREST, GL_NEAREST),
    wrap_x := GL_REPEAT, wrap_y := GL_REPEAT, anisotropy := 1,
    immutable := false, compressed := false, compressed_data := false }

/-- The `create` → `read` scenario of the spec, end to end from a fresh state. -/
def createThenRead (ctx : Context) (size : Nat × Nat × Nat) (components : Nat)
    (dtype : String) (depth : Bool) : Except Err (List Nat) :=
  match TextureArray.init ctx size components dtype none none none none depth 0 false none
      false false GLState.initial 0 with
  | .error e => .error e
  | .ok (tex, s, _) =>
    match TextureArray.read tex ctx 0 1 s with
    | .error e => .error e
    | .ok (bs, _) => .ok bs

/-- The `create` → `write` → `read` scenario of the spec, end to end from a
fresh state (full-texture write, viewport omitted). -/
def createWriteRead (ctx : Context) (size : Nat × Nat × Nat) (components : Nat)
    (dtype : String) (depth : Bool) (data : List Nat) : Except Err (List Nat) :=
  match TextureArray.init ctx size components dtype none none none none depth 0 false none
      false false GLState.initial 0 with
  | .error e => .error e
  | .ok (tex, s, _) =>
    match TextureArray.write tex ctx data 0 none s with
    | .error e => .error e
    | .ok s2 =>
      match TextureArray.read tex ctx 0 1 s2 with
      | .error e => .error e
      | .ok (bs, _) => .ok bs

/-! ## The claims -/

/-- C1, counterexample: the claim says the allocation counter is decremented
exactly once across two `delete` calls.  On the code, `delete_glo` decrements
the counter outside the `glo != 0` guard, so deleting `tex0` twice from a
counter of 5 leaves 3, not 4. -/
theorem C1_counterexample :
    (let r1 := TextureArray.delete tex0 5 GLState.initial
     let r2 := TextureArray.delete r1.1 r1.2.1 r1.2.2
     r2.2.1 = 3 ∧ r2.2.1 ≠ 5 - 1) := by decide

/-- C1 (amended): calling `delete` twice raises no error (both calls return),
the handle is invalidated by the first call and stays invalid, and the GL-side
`glDeleteTextures` is issued exactly once across the two calls — but the
allocation counter is decremented by each call, hence twice. -/
theorem C1_delete_twice (tex : TextureArray) (stats : Int) (s : GLState)
    (hglo : tex.glo ≠ 0) (halive : s.currentContextAlive = true) :
    (let r1 := TextureArray.delete tex stats s
     let r2 := TextureArray.delete r1.1 r1.2.1 r1.2.2
     r1.1.glo = 0 ∧ r2.1.glo = 0 ∧
     r2.2.2.deleteCalls = s.deleteCalls + 1 ∧
     r1.2.1 = stats - 1 ∧ r2.2.1 = stats - 2) := by
  refine ⟨?_, ?_, ?_, ?_, ?_⟩ <;>
    simp [TextureArray.delete, TextureArray.delete_glo, glDeleteTextures, halive, hglo]
  all_goals omega

/-- C1, witness: the amended statement at `tex0`, counter 5, a live fresh
context. -/
theorem C1_witness :
    (let r1 := TextureArray.delete tex0 5 GLState.initial
     let r2 := TextureArray.delete r1.1 r1.2.1 r1.2.2
     r1.1.glo = 0 ∧ r2.1.glo = 0 ∧
     r2.2.2.deleteCalls = GLState.initial.deleteCalls + 1 ∧
     r1.2.1 = 5 - 1 ∧ r2.2.1 = 5 - 2) :=
  C1_delete_twice tex0 5 GLState.initial (by decide) (by decide)

/-- C2, counterexample: the claim says `create(sampleCount > 0, data=⋯)` fails
with a configuration error regardless of the device's maximum sample
capability.  On a device with `MAX_SAMPLES = 0` the sample count is clamped to
0 before the check, so `create(samples=4, data=4 bytes)` succeeds. -/
theorem C2_counterexample :
    (TextureArray.init ctxNoMS (1, 1, 1) 4 "u1" (some [1, 2, 3, 4]) none none none
      false 4 false none false false GLState.initial 0).toOption.isSome = true := by
  decide

/-- C2 (amended): `create` fails with the multisample configuration error,
before any device call, exactly when the data argument is supplied and truthy
(non-empty) and the sample count clamped to the device maximum is positive
(an empty bytes object or a device that clamps the count to 0 skips the
check). -/
theorem C2_multisample_data_error (ctx : Context) (size : Nat × Nat × Nat)
    (components : Nat) (dtype : String) (data : Option (List Nat))
    (filterArg : Option (Nat × Nat)) (wxArg wyArg : Option Nat) (depth : Bool)
    (samples : Int) (immutable : Bool) (ifmt : Option Nat)
    (compressed compressed_data : Bool) (s : GLState) (stats : Int)
    (hc : components ∈ ([1, 2, 3, 4] : List Nat))
    (hdata : pyTruthy data = true)
    (hsamp : 0 < (min (max 0 samples) ((ctx.info.MAX_SAMPLES : Nat) : Int)).toNat) :
    TextureArray.init ctx size components dtype data filterArg wxArg wyArg depth samples
      immutable ifmt compressed compressed_data s stats =
      .error (.valueError "Multisampled textures are not writable") := by
  simp only [TextureArray.init]
  rw [if_neg (not_not_intro hc), if_pos ⟨hdata, hsamp⟩]

/-- C2, witness: `create(samples=4, data=b"\x01")` on a 4-sample-capable
device fails with the multisample configuration error. -/
theorem C2_witness :
    TextureArray.init ctxGL (1, 1, 1) 4 "u1" (some [1]) none none none false 4 false none
      false false GLState.initial 0 =
      .error (.valueError "Multisampled textures are not writable") :=
  C2_multisample_data_error ctxGL (1, 1, 1) 4 "u1" (some [1]) none none none false 4
    false none false false GLState.initial 0 (by decide) (by decide) (by decide)

/-- C5, counterexample: the claim says every supplied viewport of arity other
than 5 (including arity 0) makes `write` fail.  The source guards the arity
check with `if viewport:`, and an empty tuple is falsy in Python, so a
0-tuple viewport is silently treated as absent and the write succeeds. -/
theorem C5_counterexample :
    (TextureArray.write tex0 ctxGL [1, 2, 3, 4, 5, 6, 7, 8, 9, 10, 11, 12, 13, 14, 15, 16]
      0 (some []) GLState.initial).toOption.isSome = true := by
  decide

/-- C5 (amended): on a non-multisampled texture, a supplied non-empty viewport
whose arity is not 5 makes `write` fail with the viewport configuration error
before any device call (so no device mutation); a supplied empty viewport is
treated as absent. -/
theorem C5_viewport_arity (tex : TextureArray) (ctx : Context) (data : List Nat)
    (level : Nat) (vp : List Nat) (s : GLState)
    (hms : tex.samples = 0) (hne : vp ≠ []) (hlen : vp.length ≠ 5) :
    TextureArray.write tex ctx data level (some vp) s =
      .error (.valueError "Viewport must be of length 5") := by
  rcases vp with _ | ⟨a, _ | ⟨b, _ | ⟨c, _ | ⟨d, _ | ⟨e, _ | ⟨f, rest⟩⟩⟩⟩⟩⟩
  · exact absurd rfl hne
  · simp [TextureArray.write, hms]
  · simp [TextureArray.write, hms]
  · simp [TextureArray.write, hms]
  · simp [TextureArray.write, hms]
  · exact absurd rfl hlen
  · simp [TextureArray.write, hms]

/-- C5, witness: a 3-tuple viewport is rejected on `tex0`. -/
theorem C5_witness :
    TextureArray.write tex0 ctxGL [1, 2, 3, 4] 0 (some [0, 0, 1]) GLState.initial =
      .error (.valueError "Viewport must be of length 5") :=
  C5_viewport_arity tex0 ctxGL [1, 2, 3, 4] 0 [0, 0, 1] GLState.initial
    (by decide) (by decide) (by decide)

/-- C6 (confirmed): `resize` on an immutable texture always fails with the
configuration error, raised before any device call — the error return precedes
every GL call in the model exactly as the raise precedes them in the source,
so the texture's fields and the device state are left untouched. -/
theorem C6_resize_immutable (tex : TextureArray) (ctx : Context) (size : Nat × Nat)
    (s : GLState) (himm : tex.immutable = true) :
    TextureArray.resize tex ctx size s =
      .error (.valueError "Immutable textures cannot be resized") := by
  simp [TextureArray.resize, himm]

/-- C6, witness: resizing an immutable variant of `tex0`. -/
theorem C6_witness :
    TextureArray.resize { tex0 with immutable := true } ctxGL (8, 8) GLState.initial =
      .error (.valueError "Immutable textures cannot be resized") :=
  C6_resize_immutable { tex0 with immutable := true } ctxGL (8, 8) GLState.initial
    (by decide)

/-- C7 (confirmed): every swizzle value that is not a 4-character string over
{R,G,B,A,0,1} (case-insensitively) makes the swizzle setter fail with a
configuration error; the error return precedes every GL call exactly as the
raise does in the source, so the device-side swizzle registers are left
unchanged. -/
theorem C7_swizzle_invalid (tex : TextureArray) (ctx : Context) (value : String)
    (s : GLState)
    (hinv : ¬ (value.length = 4 ∧
        ∀ c ∈ value.toList, (swizzle_str_to_enum c.toUpper).isSome = true)) :
    ∃ msg, TextureArray.swizzle_set tex ctx value s = .error (.valueError msg) := by
  by_cases hlen : value.length = 4
  · have hex : ∃ c ∈ value.toList, ¬ (swizzle_str_to_enum c.toUpper).isSome = true := by
      by_contra hall
      push_neg at hall
      exact hinv ⟨hlen, fun c hc => hall c hc⟩
    rcases hex with ⟨c, hc, hbad⟩
    have hbad' : swizzle_str_to_enum c.toUpper = none := by
      cases hx : swizzle_str_to_enum c.toUpper with
      | none => rfl
      | some v => rw [hx] at hbad; simp at hbad
    refine ⟨"Swizzle value invalid. Must be one of RGBA01", ?_⟩
    simp only [TextureArray.swizzle_set, hlen, ne_eq, not_true_eq_false, if_false,
      ite_false]
    rw [swizzleEnumsOf_error value.toList c hc hbad']
  · exact ⟨"Swizzle must be a string of length 4", by
      simp [TextureArray.swizzle_set, hlen]⟩

/-- C7, witness: the 3-character string "RGB" is rejected on `tex0`. -/
theorem C7_witness :
    ∃ msg, TextureArray.swizzle_set tex0 ctxGL "RGB" GLState.initial =
      .error (.valueError msg) :=
  C7_swizzle_invalid tex0 ctxGL "RGB" GLState.initial (by decide)

/-- C8 (confirmed): setting `compare_func` on a texture not created as a depth
texture fails with the configuration error regardless of the supplied value
(the depth check is the first statement of the setter). -/
theorem C8_compare_func_nondepth (tex : TextureArray) (ctx : Context)
    (value : Option String) (s : GLState) (hd : tex.depth = false) :
    TextureArray.compare_func_set tex ctx value s =
      .error (.valueError "Depth comparison function can only be set on depth textures") := by
  simp [TextureArray.compare_func_set, hd]

/-- C8, witness: the otherwise-valid value "<=" is rejected on the non-depth
`tex0`. -/
theorem C8_witness :
    TextureArray.compare_func_set tex0 ctxGL (some "<=") GLState.initial =
      .error (.valueError "Depth comparison function can only be set on depth textures") :=
  C8_compare_func_nondepth tex0 ctxGL (some "<=") GLState.initial (by decide)

/-- C9 (confirmed): on a device reporting a maximum anisotropy of at least 1,
the anisotropy setter clamps — a value above the device maximum stores exactly
the maximum, a value below 1 stores exactly 1, and a value in
[1, maximum] is stored unchanged. -/
theorem C9_anisotropy_clamps (tex : TextureArray) (ctx : Context) (value : ℚ)
    (s : GLState) (hmax : 1 ≤ ctx.info.MAX_TEXTURE_MAX_ANISOTROPY) :
    (ctx.info.MAX_TEXTURE_MAX_ANISOTROPY < value →
      (TextureArray.anisotropy_set tex ctx value s).1.anisotropy
        = ctx.info.MAX_TEXTURE_MAX_ANISOTROPY) ∧
    (value < 1 → (TextureArray.anisotropy_set tex ctx value s).1.anisotropy = 1) ∧
    (1 ≤ value → value ≤ ctx.info.MAX_TEXTURE_MAX_ANISOTROPY →
      (TextureArray.anisotropy_set tex ctx value s).1.anisotropy = value) := by
  have hval : (TextureArray.anisotropy_set tex ctx value s).1.anisotropy
      = max 1 (min value ctx.info.MAX_TEXTURE_MAX_ANISOTROPY) := rfl
  refine ⟨fun h => ?_, fun h => ?_, fun h1 h2 => ?_⟩
  · rw [hval, min_eq_right h.le, max_eq_right hmax]
  · rw [hval, min_eq_left (le_trans h.le hmax), max_eq_left h.le]
  · rw [hval, min_eq_left h2, max_eq_right h1]

/-- A full-texture `write` (viewport omitted) with byte data of the expected
single-layer size succeeds and performs the corresponding sub-image update on
the device storage. -/
theorem write_full (tex : TextureArray) (ctx : Context) (data : List Nat)
    (level : Nat) (s : GLState)
    (hms : tex.samples = 0) (hcompr : tex.compressed = false)
    (f : Nat) (hf : tex.format = some f)
    (hlen : data.length
      = tex.width * tex.height * 1 * tex.component_size * tex.components) :
    ∃ s2, TextureArray.write tex ctx data level none s = .ok s2 ∧
      s2.contents = texSubImageContents s.texW s.texH s.texL s.pixSize 0 0 0
        tex.width tex.height 1 data s.contents := by
  simp only [TextureArray.write, hms, TextureArray.validate_data_size, hcompr, hlen, hf,
    Nat.lt_irrefl, if_false, Bool.false_eq_true, ne_eq, not_true_eq_false, ite_false,
    glActiveTexture, glBindTexture, glPixelStorei_pack, glPixelStorei_unpack,
    glTexSubImage3D]
  exact ⟨_, rfl, rfl⟩

/-- The value `read` returns on the full API variant: the device storage bytes
copied into a client buffer of the client-computed size. -/
theorem read_value (tex : TextureArray) (ctx : Context) (level alignment : Nat)
    (s : GLState) (hms : tex.samples = 0) (hapi : ctx.gl_api = "gl")
    (f : Nat) (hf : tex.format = some f) :
    ∃ s2, tex.read ctx level alignment s = .ok
      ((List.range (tex.width * tex.height * tex.layers * tex.component_size
          * tex.components)).map (fun i => s.contents.getD i 0), s2) := by
  simp only [TextureArray.read, hms, hapi, hf, Nat.lt_irrefl, if_false,
    glActiveTexture, glBindTexture, glPixelStorei_pack, glGetTexImage]
  exact ⟨_, rfl⟩

/-- C3, counterexample: the claim quantifies over every non-multisampled
texture with valid components and a supported element kind, but (a) on the
restricted "gles" API variant `read` raises instead of returning bytes, and
(b) on a depth texture the `_format` slot was never assigned, so `read`
raises `AttributeError`. -/
theorem C3_counterexample :
    createThenRead ctxGLES (2, 2, 3) 4 "u1" false =
      .error (.valueError "Reading texture array data not supported in GLES yet") ∧
    createThenRead ctxGL (2, 2, 1) 4 "u1" true =
      .error (.attributeError "format slot is unset on this texture") := by
  decide

/-- C3 (amended): on the full API variant ("gl"), for every non-depth,
non-multisampled texture created (with or without immutable storage, any
filter/wrap arguments, no compressed data) with valid components and a
supported element kind and no initial data, `read` on the freshly created
zero-initialized texture returns a byte sequence of length
`width * height * layers * elementByteSize * components`. -/
theorem C3_create_read_length (ctx : Context) (w h l components : Nat) (dtype : String)
    (filterArg : Option (Nat × Nat)) (wxArg wyArg : Option Nat)
    (immutable : Bool) (ifmt : Option Nat) (compressed : Bool)
    (s : GLState) (stats : Int) (fi : PixelFormatInfo)
    (hapi : ctx.gl_api = "gl")
    (hc : components ∈ ([1, 2, 3, 4] : List Nat))
    (hdt : pixel_formats dtype = some fi) (hid : s.nextId ≠ 0) :
    ∃ tex s2 bs s3,
      TextureArray.init ctx (w, h, l) components dtype none filterArg wxArg wyArg false 0
        immutable ifmt compressed false s stats = .ok (tex, s2, stats + 1) ∧
      TextureArray.read tex ctx 0 1 s2 = .ok (bs, s3) ∧
      bs.length = w * h * l * fi.size * components := by
  obtain ⟨tex, s2, hinit, hw, hh, hl, hcomp, hcs, hdty, hms, hdep, hfmt, himm, hcompr,
    hglo, hTW, hTH, hTL, hPS, hCONT⟩ :=
    init_ok ctx w h l components dtype filterArg wxArg wyArg immutable ifmt compressed
      s stats fi hc hdt hid
  obtain ⟨bs, s3, hread, hlen⟩ := read_length tex ctx 0 1 s2 hms hapi (by rw [hfmt]; rfl)
  exact ⟨tex, s2, bs, s3, hinit, hread, by rw [hlen, hw, hh, hl, hcs, hcomp]⟩

/-- C3, witness: a 2x2x3 RGBA `u1` texture on the full variant reads back
`2 * 2 * 3 * 1 * 4` bytes. -/
theorem C3_witness :
    ∃ tex s2 bs s3,
      TextureArray.init ctxGL (2, 2, 3) 4 "u1" none none none none false 0
        false none false false GLState.initial 0 = .ok (tex, s2, 0 + 1) ∧
      TextureArray.read tex ctxGL 0 1 s2 = .ok (bs, s3) ∧
      bs.length = 2 * 2 * 3 * u1fi.size * 4 :=
  C3_create_read_length ctxGL 2 2 3 4 "u1" none none none false none false
    GLState.initial 0 u1fi rfl (by decide) (by decide) (by decide)

/-- C4, counterexample: the full-texture `write` validates and writes a single
layer, while `read` returns every layer, so on a 1x1x2 texture the written 4
bytes read back as 8 bytes (not the written pattern); and on a depth texture
`write` raises `AttributeError` because the `_format` slot was never
assigned. -/
theorem C4_counterexample :
    createWriteRead ctxGL (1, 1, 2) 4 "u1" false [1, 2, 3, 4] =
      .ok [1, 2, 3, 4, 0, 0, 0, 0] ∧
    ([1, 2, 3, 4, 0, 0, 0, 0] : List Nat) ≠ [1, 2, 3, 4] ∧
    createWriteRead ctxGL (1, 1, 1) 4 "u1" true [1, 2, 3, 4] =
      .error (.attributeError "format slot is unset on this texture") := by
  decide

/-- C4 (amended): on the full API variant, for every non-depth,
non-multisampled, uncompressed SINGLE-LAYER texture, writing a byte pattern of
the expected size `width * height * elementByteSize * components` with
viewport omitted and then reading the full texture back yields exactly the
written bytes.  (For more than one layer the round trip cannot hold: the
full-texture write covers one layer while `read` returns all layers.) -/
theorem C4_write_read_roundtrip (ctx : Context) (w h components : Nat) (dtype : String)
    (filterArg : Option (Nat × Nat)) (wxArg wyArg : Option Nat)
    (immutable : Bool) (ifmt : Option Nat) (s : GLState) (stats : Int)
    (fi : PixelFormatInfo) (data : List Nat)
    (hapi : ctx.gl_api = "gl")
    (hc : components ∈ ([1, 2, 3, 4] : List Nat))
    (hdt : pixel_formats dtype = some fi) (hid : s.nextId ≠ 0)
    (hdata : data.length = w * h * (fi.size * components)) :
    ∃ tex s2 s3 s4,
      TextureArray.init ctx (w, h, 1) components dtype none filterArg wxArg wyArg false 0
        immutable ifmt false false s stats = .ok (tex, s2, stats + 1) ∧
      TextureArray.write tex ctx data 0 none s2 = .ok s3 ∧
      TextureArray.read tex ctx 0 1 s3 = .ok (data, s4) := by
  obtain ⟨tex, s2, hinit, hw, hh, hl, hcomp, hcs, hdty, hms, hdep, hfmt, himm, hcompr,
    hglo, hTW, hTH, hTL, hPS, hCONT⟩ :=
    init_ok ctx w h 1 components dtype filterArg wxArg wyArg immutable ifmt false s stats
      fi hc hdt hid
  obtain ⟨s3, hwrite, hcont3⟩ :=
    write_full tex ctx data 0 s2 hms hcompr _ hfmt
      (by rw [hw, hh, hcs, hcomp, hdata]; ring)
  obtain ⟨s4, hread⟩ := read_value tex ctx 0 1 s3 hms hapi _ hfmt
  have hc3 : s3.contents = data := by
    rw [hcont3, hTW, hTH, hTL, hPS, hw, hh]
    exact texSubImageContents_full w h (fi.size * components) data _ hdata
  have hmap : (List.range (tex.width * tex.height * tex.layers * tex.component_size
      * tex.components)).map (fun i => s3.contents.getD i 0) = data := by
    rw [hw, hh, hl, hcs, hcomp]
    simp only [hc3]
    exact range_map_getD _ data (by rw [hdata]; ring)
  rw [hmap] at hread
  exact ⟨tex, s2, s3, s4, hinit, hwrite, hread⟩

/-- C4, witness: a 2x2x1 single-component `u1` texture round-trips the 4-byte
pattern 9, 8, 7, 6. -/
theorem C4_witness :
    ∃ tex s2 s3 s4,
      TextureArray.init ctxGL (2, 2, 1) 1 "u1" none none none none false 0
        false none false false GLState.initial 0 = .ok (tex, s2, 0 + 1) ∧
      TextureArray.write tex ctxGL [9, 8, 7, 6] 0 none s2 = .ok s3 ∧
      TextureArray.read tex ctxGL 0 1 s3 = .ok ([9, 8, 7, 6], s4) :=
  C4_write_read_roundtrip ctxGL 2 2 1 "u1" none none none false none
    GLState.initial 0 u1fi [9, 8, 7, 6] rfl (by decide) (by decide) (by decide) (by decide)

/-- C10 (confirmed, implicit claim): `byte_size` is
`elementByteSize * components * width * height` with no layer-count factor,
so on a texture with at least two layers (and positive extents) it is strictly
smaller than the byte length a full `read` returns. -/
theorem C10_byte_size_missing_layers (ctx : Context) (w h l components : Nat)
    (dtype : String) (filterArg : Option (Nat × Nat)) (wxArg wyArg : Option Nat)
    (immutable : Bool) (ifmt : Option Nat) (compressed : Bool)
    (s : GLState) (stats : Int) (fi : PixelFormatInfo)
    (hapi : ctx.gl_api = "gl")
    (hc : components ∈ ([1, 2, 3, 4] : List Nat))
    (hdt : pixel_formats dtype = some fi) (hid : s.nextId ≠ 0)
    (hw : 0 < w) (hh : 0 < h) (hl2 : 2 ≤ l) :
    ∃ tex s2 bs s3,
      TextureArray.init ctx (w, h, l) components dtype none filterArg wxArg wyArg false 0
        immutable ifmt compressed false s stats = .ok (tex, s2, stats + 1) ∧
      TextureArray.byte_size tex = some (fi.size * components * w * h) ∧
      TextureArray.read tex ctx 0 1 s2 = .ok (bs, s3) ∧
      fi.size * components * w * h < bs.length := by
  obtain ⟨tex, s2, hinit, hw', hh', hl', hcomp, hcs, hdty, hms, hdep, hfmt, himm, hcompr,
    hglo, hTW, hTH, hTL, hPS, hCONT⟩ :=
    init_ok ctx w h l components dtype filterArg wxArg wyArg immutable ifmt compressed
      s stats fi hc hdt hid
  obtain ⟨bs, s3, hread, hlen⟩ := read_length tex ctx 0 1 s2 hms hapi (by rw [hfmt]; rfl)
  have hbs : TextureArray.byte_size tex = some (fi.size * components * w * h) := by
    simp [TextureArray.byte_size, hdty, hdt, hw', hh', hcomp]
  have hsize : 0 < fi.size := pixel_formats_size_pos dtype fi hdt
  have hcpos : 0 < components := by
    have h4 : components = 1 ∨ components = 2 ∨ components = 3 ∨ components = 4 := by
      simpa using hc
    omega
  refine ⟨tex, s2, bs, s3, hinit, hbs, hread, ?_⟩
  rw [hlen, hw', hh', hl', hcs, hcomp]
  have hA : 0 < fi.size * components * w * h :=
    Nat.mul_pos (Nat.mul_pos (Nat.mul_pos hsize hcpos) hw) hh
  calc fi.size * components * w * h
      = fi.size * components * w * h * 1 := by ring
    _ < fi.size * components * w * h * l :=
        mul_lt_mul_of_pos_left (by omega) hA
    _ = w * h * l * fi.size * components := by ring

/-- C10, witness: on a 2x2x3 RGBA `u1` texture, `byte_size` is 16 while the
full read returns 48 bytes. -/
theorem C10_witness :
    ∃ tex s2 bs s3,
      TextureArray.init ctxGL (2, 2, 3) 4 "u1" none none none none false 0
        false none false false GLState.initial 0 = .ok (tex, s2, 0 + 1) ∧
      TextureArray.byte_size tex = some (u1fi.size * 4 * 2 * 2) ∧
      TextureArray.read tex ctxGL 0 1 s2 = .ok (bs, s3) ∧
      u1fi.size * 4 * 2 * 2 < bs.length :=
  C10_byte_size_missing_layers ctxGL 2 2 3 4 "u1" none none none false none false
    GLState.initial 0 u1fi rfl (by decide) (by decide) (by decide) (by decide) (by decide)
    (by decide)

/-- C9, witness: the clamp statement on `tex0` with the device maximum 16 and
the requested value 32 (so the first clamp branch applies). -/
theorem C9_witness :
    (ctxGL.info.MAX_TEXTURE_MAX_ANISOTROPY < 32 →
      (TextureArray.anisotropy_set tex0 ctxGL 32 GLState.initial).1.anisotropy
        = ctxGL.info.MAX_TEXTURE_MAX_ANISOTROPY) ∧
    ((32 : ℚ) < 1 →
      (TextureArray.anisotropy_set tex0 ctxGL 32 GLState.initial).1.anisotropy = 1) ∧
    ((1 : ℚ) ≤ 32 → (32 : ℚ) ≤ ctxGL.info.MAX_TEXTURE_MAX_ANISOTROPY →
      (TextureArray.anisotropy_set tex0 ctxGL 32 GLState.initial).1.anisotropy = 32) :=
  C9_anisotropy_clamps tex0 ctxGL 32 GLState.initial (by norm_num [ctxGL])

end Arcade
